import Mathlib

/-!
Shallow embedding of `wordpress_manager.py`, a command-line tool that
provisions, starts, stops and tears down local WordPress environments by
writing per-site configuration files, appending to the hosts file and
invoking `docker` / `docker-compose` as subprocesses.

The filesystem is modelled as a pair of total maps (directories and files),
subprocess behaviour is driven by oracles carried in the `World` (whether an
executable can be spawned, and which exit code a spawned command returns),
and every observable side effect (subprocess spawn, `print`, browser open)
is recorded in an event trace.  Python exception semantics are modelled
explicitly: `subprocess.run` raises `FileNotFoundError` when its `cwd` does
not exist or when the executable cannot be found, and raises
`CalledProcessError` when invoked with `check=True` and the command exits
non-zero; `sys.exit(1)` is a distinguished terminal outcome.
-/

set_option maxRecDepth 10000

namespace WPM

/-- Filesystem state: which directories exist and what each file contains. -/
@[ext] structure FS where
  dirs : String → Bool
  files : String → Option String

/-- `os.makedirs(d, exist_ok=True)`: ensure directory `d` exists (no error if
it already does). -/
def FS.makedirs (fs : FS) (d : String) : FS :=
  { fs with dirs := fun x => if x = d then true else fs.dirs x }

/-- `open(p, "w")` followed by `write(c)`: create or overwrite file `p`. -/
def FS.write (fs : FS) (p c : String) : FS :=
  { fs with files := fun x => if x = p then some c else fs.files x }

/-- `open(p, "a")` followed by `write(c)`: append to file `p` (creating it
when absent, like Python append mode). -/
def FS.append (fs : FS) (p c : String) : FS :=
  { fs with files := fun x => if x = p then some ((fs.files p).getD "" ++ c) else fs.files x }

/-- `shutil.rmtree(d)`: remove directory `d` and every file below it. -/
def FS.rmtree (fs : FS) (d : String) : FS :=
  { dirs := fun x => if x = d then false else fs.dirs x
    files := fun x => if (d ++ "/").isPrefixOf x then none else fs.files x }

/-- Observable side effects, in program order. -/
inductive Event where
  | ran (cmd : List String) (cwd : Option String)
  | printed (msg : String)
  | browserOpened (url : String)
deriving DecidableEq

/-- Python exceptions relevant to this program. -/
inductive Exc where
  | fileNotFound (name : String)
  | calledProcessError (cmd : List String)
deriving DecidableEq

/-- How a function invocation ends: normal return, an uncaught exception
propagating out, or process termination via `sys.exit`. -/
inductive Outcome where
  | ok
  | exc (e : Exc)
  | exited (code : Int)
deriving DecidableEq

/-- Program state plus environment oracles: the platform string, which
executables can be spawned, the exit code the environment gives a spawned
command, and the Windows-only oracles (admin privilege, registry lookup
result for the hosts directory, as `.ok path` or `.error message`). -/
structure World where
  fs : FS
  platform : String
  invocable : String → Bool
  exitCode : List String → Option String → Int
  isAdmin : Bool
  winreg : Except String String

/-- Result of running one embedded function: outcome, final filesystem and
the trace of events it emitted. -/
structure Res where
  out : Outcome
  fs : FS
  events : List Event

/-- Spawning a process once the working directory is known to exist:
`FileNotFoundError` when the executable is missing; otherwise the command
runs (a `ran` event) and, with `check=True`, a non-zero exit code raises
`CalledProcessError`. -/
def spawnExec (w : World) (cmd : List String) (cwd : Option String) (check : Bool) :
    Outcome × List Event :=
  if w.invocable (cmd.headD "") = true then
    if check = true ∧ ¬ w.exitCode cmd cwd = 0 then
      (.exc (.calledProcessError cmd), [.ran cmd cwd])
    else (.ok, [.ran cmd cwd])
  else (.exc (.fileNotFound (cmd.headD "")), [])

/-- `subprocess.run(cmd, cwd=cwd, check=check, ...)`: in CPython the child
first changes into `cwd`, so a missing working directory raises
`FileNotFoundError` naming it, before the executable is even looked up. -/
def subprocessRun (w : World) (cmd : List String) (cwd : Option String) (check : Bool) :
    Outcome × List Event :=
  match cwd with
  | some d => if w.fs.dirs d = true then spawnExec w cmd cwd check
              else (.exc (.fileNotFound d), [])
  | none => spawnExec w cmd cwd check

def dockerMissingMsg : String :=
  "Docker is not installed. Please install Docker before running this script."

def composeMissingMsg : String :=
  "Docker Compose is not installed. Please install Docker Compose before running this script."

/-- `check_dependencies()`: run `docker --version` and
`docker-compose --version` with `check=True`; only `CalledProcessError` is
caught (printing a message and calling `sys.exit(1)`); any other exception,
in particular `FileNotFoundError` from a missing executable, propagates. -/
def check_dependencies (w : World) : Res :=
  match subprocessRun w ["docker", "--version"] none true with
  | (Outcome.ok, ev1) =>
    (match subprocessRun w ["docker-compose", "--version"] none true with
     | (Outcome.ok, ev2) => ⟨.ok, w.fs, ev1 ++ ev2⟩
     | (Outcome.exc (Exc.calledProcessError _), ev2) =>
         ⟨.exited 1, w.fs, ev1 ++ (ev2 ++ [.printed composeMissingMsg])⟩
     | (o2, ev2) => ⟨o2, w.fs, ev1 ++ ev2⟩)
  | (Outcome.exc (Exc.calledProcessError _), ev1) =>
      ⟨.exited 1, w.fs, ev1 ++ [.printed dockerMissingMsg]⟩
  | (o1, ev1) => ⟨o1, w.fs, ev1⟩

/-- The `docker-compose.yml` text written by `create_wordpress_site`.  In the
source it is an f-string, but one containing no placeholder, so it is a
constant. -/
def dockerComposeYml : String :=
  "version: \x273\x27\nservices:\n  db:\n    image: mysql:5.7\n    restart: always\n    environment:\n      MYSQL_DATABASE: wordpress\n      MYSQL_USER: root\n      MYSQL_PASSWORD: example\n      MYSQL_RANDOM_ROOT_PASSWORD: \"yes\"\n    volumes:\n      - db_data:/var/lib/mysql\n  wordpress:\n    depends_on:\n      - db\n    image: wordpress:latest\n    restart: always\n    environment:\n      WORDPRESS_DB_HOST: db\n      WORDPRESS_DB_NAME: wordpress\n      WORDPRESS_DB_USER: root\n      WORDPRESS_DB_PASSWORD: example\n    volumes:\n      - ./wp-content:/var/www/html/wp-content\n  nginx:\n    image: nginx:latest\n    restart: always\n    ports:\n      - \"80:80\"\n    volumes:\n      - ./nginx.conf:/etc/nginx/conf.d/default.conf:ro\n      - ./wp-content:/var/www/html/wp-content\nvolumes:\n  db_data:\n"

/-- The `nginx.conf` text written by `create_wordpress_site`: an f-string
substituting the site name once, as the `server_name`. -/
def nginxConf (s : String) : String :=
  "server \x7b\n    listen 80;\n    server_name " ++ s ++
  ";\n    root /var/www/html;\n    index index.php;\n\n    location / \x7b\n        try_files $uri $uri/ /index.php?$args;\n    \x7d\n\n    location ~ \\.php$ \x7b\n        include fastcgi_params;\n        fastcgi_pass wordpress:9000;\n        fastcgi_index index.php;\n        fastcgi_param SCRIPT_FILENAME $document_root$fastcgi_script_name;\n    \x7d\n\x7d\n"

/-- The line appended to the hosts file: `127.0.0.1 <site_name>\n`. -/
def hostEntry (s : String) : String := "127.0.0.1 " ++ s ++ "\n"

/-- `add_host_entry_unix(site_name)`: append the entry to `/etc/hosts`. -/
def add_host_entry_unix (s : String) (fs : FS) : FS :=
  fs.append "/etc/hosts" (hostEntry s)

def adminMsg : String :=
  "Error: The script needs to be run with administrator privileges to modify the hosts entry."

def hostsAddedMsg : String := "Hosts entry added successfully."

/-- `add_host_entry_windows(site_name)`: `sys.exit(1)` without admin rights;
otherwise look the hosts directory up in the registry (oracle), append the
entry to `<data_path>\hosts`, printing success, and catch any exception,
printing `Error: <e>` without terminating. -/
def add_host_entry_windows (s : String) (w : World) (fs : FS) : Res :=
  if w.isAdmin = true then
    match w.winreg with
    | .ok dataPath =>
        ⟨.ok, fs.append (dataPath ++ "\\hosts") (hostEntry s), [.printed hostsAddedMsg]⟩
    | .error e => ⟨.ok, fs, [.printed ("Error: " ++ e)]⟩
  else ⟨.exited 1, fs, [.printed adminMsg]⟩

/-- The first part of `create_wordpress_site` (the spec's Site Materializer):
`os.makedirs(site_name, exist_ok=True)`, then write
`<site_name>/docker-compose.yml` and `<site_name>/nginx.conf`. -/
def materialize_site (s : String) (fs : FS) : FS :=
  ((fs.makedirs s).write (s ++ "/docker-compose.yml") dockerComposeYml).write
    (s ++ "/nginx.conf") (nginxConf s)

def createdMsg (s : String) : String :=
  "WordPress site \x27" ++ s ++ "\x27 with a LEMP stack created successfully!"

def pleaseWaitMsg : String := "Please wait for a moment while the site is being set up..."

def openingMsg : String := "Opening the site in your default browser..."

/-- `create_wordpress_site(site_name)`: materialize the site directory and
its two files, register the host entry (platform-dependent), then print the
three messages and open `http://<site_name>` in the browser. -/
def create_wordpress_site (s : String) (w : World) : Res :=
  let fs1 := materialize_site s w.fs
  let hr : Res :=
    if w.platform = "Windows" then add_host_entry_windows s w fs1
    else ⟨.ok, add_host_entry_unix s fs1, []⟩
  match hr.out with
  | .ok => ⟨.ok, hr.fs,
      hr.events ++ [.printed (createdMsg s), .printed pleaseWaitMsg, .printed openingMsg,
        .browserOpened ("http://" ++ s)]⟩
  | o => ⟨o, hr.fs, hr.events⟩

def enabledMsg (s : String) : String :=
  "WordPress site \x27" ++ s ++ "\x27 is now enabled and running!"

/-- `enable_wordpress_site(site_name)`: run `docker-compose up -d` with the
site directory as working directory (exit code not inspected), then print
the success message. -/
def enable_wordpress_site (s : String) (w : World) : Res :=
  match subprocessRun w ["docker-compose", "up", "-d"] (some s) false with
  | (Outcome.ok, ev) => ⟨.ok, w.fs, ev ++ [.printed (enabledMsg s)]⟩
  | (o, ev) => ⟨o, w.fs, ev⟩

def disabledMsg (s : String) : String :=
  "WordPress site \x27" ++ s ++ "\x27 is now disabled and stopped!"

/-- `disable_wordpress_site(site_name)`: run `docker-compose down` with the
site directory as working directory (exit code not inspected), then print
the success message. -/
def disable_wordpress_site (s : String) (w : World) : Res :=
  match subprocessRun w ["docker-compose", "down"] (some s) false with
  | (Outcome.ok, ev) => ⟨.ok, w.fs, ev ++ [.printed (disabledMsg s)]⟩
  | (o, ev) => ⟨o, w.fs, ev⟩

def deletedMsg (s : String) : String :=
  "WordPress site \x27" ++ s ++ "\x27 is deleted successfully!"

def absentMsg (s : String) : String :=
  "WordPress site \x27" ++ s ++ "\x27 does not exist."

/-- `delete_wordpress_site(site_name)`: run `docker-compose down` with the
site directory as working directory, then `shutil.rmtree(site_name)` inside
a `try` whose `except FileNotFoundError` prints the absence message.  Only
the `rmtree` call is inside the `try`; an exception from `subprocess.run`
(in particular the `FileNotFoundError` raised when the working directory is
missing) propagates uncaught. -/
def delete_wordpress_site (s : String) (w : World) : Res :=
  match subprocessRun w ["docker-compose", "down"] (some s) false with
  | (Outcome.ok, ev) =>
      if w.fs.dirs s = true then
        ⟨.ok, w.fs.rmtree s, ev ++ [.printed (deletedMsg s)]⟩
      else ⟨.ok, w.fs, ev ++ [.printed (absentMsg s)]⟩
  | (o, ev) => ⟨o, w.fs, ev⟩

/-- The `__main__` dispatch for `action == "create"`: `check_dependencies()`,
`create_wordpress_site(site_name)`, then (again) the two waiting messages
and a second `webbrowser.open`. -/
def mainCreate (s : String) (w : World) : Res :=
  let r1 := check_dependencies w
  match r1.out with
  | .ok =>
    let r2 := create_wordpress_site s { w with fs := r1.fs }
    (match r2.out with
     | .ok => ⟨.ok, r2.fs,
         r1.events ++ r2.events ++ [.printed pleaseWaitMsg, .printed openingMsg,
           .browserOpened ("http://" ++ s)]⟩
     | o => ⟨o, r2.fs, r1.events ++ r2.events⟩)
  | o => ⟨o, r1.fs, r1.events⟩

/-- The messages printed by a run, in order. -/
def printedMsgs (r : Res) : List String :=
  r.events.filterMap fun e =>
    match e with
    | .printed m => some m
    | _ => none

/-- Number of occurrences of an event in a trace. -/
def countEv (l : List Event) (e : Event) : Nat :=
  (l.filter fun x => decide (x = e)).length

/-- Boolean substring check: `needle` occurs contiguously in `hay`.
`infixB_iff` below proves it equivalent to `List.IsInfix`. -/
def infixB (needle : List Char) : List Char → Bool
  | [] => needle.isEmpty
  | b :: t => needle.isPrefixOf (b :: t) || infixB needle t

/-- `hay` contains `needle` as a contiguous substring (executable). -/
abbrev ContainsSub (hay needle : String) : Prop :=
  infixB needle.data hay.data = true

/-- The PHP location block of the generated `nginx.conf`, up to and including
the FastCGI pass to the application container. -/
def phpPassFragment : String :=
  "location ~ \\.php$ \x7b\n        include fastcgi_params;\n        fastcgi_pass wordpress:9000;"

/-- The fragment of the generated `docker-compose.yml` declaring that the
`wordpress` service depends on the `db` service. -/
def dependsFragment : String := "  wordpress:\n    depends_on:\n      - db\n"

/-! ### Concrete worlds used to evaluate the embedding -/

def emptyFS : FS := ⟨fun _ => false, fun _ => none⟩

/-- A Linux host where both tools are installed and every command exits 0. -/
def baseWorld : World :=
  ⟨emptyFS, "Linux", fun _ => true, fun _ _ => 0, false, Except.ok "C:\\demo"⟩

/-- A Linux host where both tools are installed but every command exits 1. -/
def failWorld : World := { baseWorld with exitCode := fun _ _ => 1 }

/-- A Linux host where no executable can be spawned at all. -/
def noDockerWorld : World := { baseWorld with invocable := fun _ => false }

/-- A Linux host with a (bare) `foo` directory and a `docker-compose` whose
every invocation exits 1 — e.g. because `foo/docker-compose.yml` is absent. -/
def fooDirWorld : World :=
  { baseWorld with
      fs := ⟨fun x => decide (x = "foo"), fun _ => none⟩
      exitCode := fun _ _ => 1 }

/-! ### String helpers -/

/-- First character of a string, if any. -/
def firstCh (s : String) : Option Char := s.data.head?

/-- Last character of a string, if any. -/
def lastCh (s : String) : Option Char := s.data.reverse.head?

theorem infixB_iff (needle : List Char) : ∀ hay : List Char,
    infixB needle hay = true ↔ needle <:+: hay
  | [] => by simp [infixB, List.isEmpty_iff]
  | b :: t => by
      rw [infixB, Bool.or_eq_true, List.isPrefixOf_iff_prefix, infixB_iff needle t,
        List.infix_cons_iff]

theorem firstCh_append (a b : String) (c : Char) (rest : List Char)
    (ha : a.data = c :: rest) : firstCh (a ++ b) = some c := by
  unfold firstCh
  rw [String.data_append, ha]
  rfl

theorem firstCh_append2 (a b c : String) (ch : Char) (rest : List Char)
    (ha : a.data = ch :: rest) : firstCh (a ++ b ++ c) = some ch := by
  unfold firstCh
  rw [String.data_append, String.data_append, ha]
  rfl

theorem lastCh_append (a b : String) (hb : b.data.reverse ≠ []) :
    lastCh (a ++ b) = lastCh b := by
  unfold lastCh
  rw [String.data_append, List.reverse_append]
  cases hbb : b.data.reverse with
  | nil => exact absurd hbb hb
  | cons c rest => rfl

theorem ne_of_firstCh {x y : String} {cx cy : Char}
    (hx : firstCh x = some cx) (hy : firstCh y = some cy) (h : cx ≠ cy) : x ≠ y := by
  intro he
  rw [he] at hx
  rw [hx] at hy
  exact h (Option.some.inj hy)

theorem ne_of_lastCh {x y : String} {cx cy : Char}
    (hx : lastCh x = some cx) (hy : lastCh y = some cy) (h : cx ≠ cy) : x ≠ y := by
  intro he
  rw [he] at hx
  rw [hx] at hy
  exact h (Option.some.inj hy)

theorem lastCh_compose_path (s : String) : lastCh (s ++ "/docker-compose.yml") = some 'l' := by
  rw [lastCh_append]
  · rfl
  · intro h
    simp at h

theorem lastCh_nginx_path (s : String) : lastCh (s ++ "/nginx.conf") = some 'f' := by
  rw [lastCh_append]
  · rfl
  · intro h
    simp at h

theorem lastCh_win_hosts_path (d : String) : lastCh (d ++ "\\hosts") = some 's' := by
  rw [lastCh_append]
  · rfl
  · intro h
    simp at h

theorem etc_hosts_ne_compose (s : String) : "/etc/hosts" ≠ s ++ "/docker-compose.yml" :=
  ne_of_lastCh (x := "/etc/hosts") rfl (lastCh_compose_path s) (by decide)

theorem etc_hosts_ne_nginx (s : String) : "/etc/hosts" ≠ s ++ "/nginx.conf" :=
  ne_of_lastCh (x := "/etc/hosts") rfl (lastCh_nginx_path s) (by decide)

theorem win_hosts_ne_compose (d s : String) : d ++ "\\hosts" ≠ s ++ "/docker-compose.yml" :=
  ne_of_lastCh (lastCh_win_hosts_path d) (lastCh_compose_path s) (by decide)

theorem win_hosts_ne_nginx (d s : String) : d ++ "\\hosts" ≠ s ++ "/nginx.conf" :=
  ne_of_lastCh (lastCh_win_hosts_path d) (lastCh_nginx_path s) (by decide)

theorem compose_ne_nginx_path (s t : String) : s ++ "/docker-compose.yml" ≠ t ++ "/nginx.conf" :=
  ne_of_lastCh (lastCh_compose_path s) (lastCh_nginx_path t) (by decide)

/-! ### Filesystem lookup lemmas -/

theorem FS.files_write_self (fs : FS) (p c : String) : (fs.write p c).files p = some c := by
  simp [FS.write]

theorem FS.files_write_ne (fs : FS) (p c q : String) (h : q ≠ p) :
    (fs.write p c).files q = fs.files q := by
  simp [FS.write, h]

theorem FS.files_append_self (fs : FS) (p c : String) :
    (fs.append p c).files p = some ((fs.files p).getD "" ++ c) := by
  simp [FS.append]

theorem FS.files_append_ne (fs : FS) (p c q : String) (h : q ≠ p) :
    (fs.append p c).files q = fs.files q := by
  simp [FS.append, h]

theorem FS.files_makedirs (fs : FS) (d q : String) : (fs.makedirs d).files q = fs.files q := rfl

theorem materialize_files_nginx (s : String) (fs : FS) :
    (materialize_site s fs).files (s ++ "/nginx.conf") = some (nginxConf s) := by
  unfold materialize_site
  rw [FS.files_write_self]

theorem materialize_files_compose (s : String) (fs : FS) :
    (materialize_site s fs).files (s ++ "/docker-compose.yml") = some dockerComposeYml := by
  unfold materialize_site
  rw [FS.files_write_ne _ _ _ _ (compose_ne_nginx_path s s), FS.files_write_self]

theorem materialize_files_other (s : String) (fs : FS) (q : String)
    (h1 : q ≠ s ++ "/docker-compose.yml") (h2 : q ≠ s ++ "/nginx.conf") :
    (materialize_site s fs).files q = fs.files q := by
  unfold materialize_site
  rw [FS.files_write_ne _ _ _ _ h2, FS.files_write_ne _ _ _ _ h1, FS.files_makedirs]

/-! ### Behaviour of `create_wordpress_site` on the filesystem -/



theorem create_fs (s : String) (w : World) :
    (create_wordpress_site s w).fs =
      (if w.platform = "Windows" then add_host_entry_windows s w (materialize_site s w.fs)
       else ⟨.ok, add_host_entry_unix s (materialize_site s w.fs), []⟩ : Res).fs := by
  simp only [create_wordpress_site]
  split <;> rfl

theorem create_files_compose (s : String) (w : World) :
    (create_wordpress_site s w).fs.files (s ++ "/docker-compose.yml") = some dockerComposeYml := by
  rw [create_fs]
  by_cases hp : w.platform = "Windows"
  · rw [if_pos hp]
    unfold add_host_entry_windows
    by_cases ha : w.isAdmin = true
    · rw [if_pos ha]
      cases hreg : w.winreg with
      | ok d =>
          simp only
          rw [FS.files_append_ne _ _ _ _ (win_hosts_ne_compose d s).symm,
            materialize_files_compose]
      | error e =>
          simp only
          rw [materialize_files_compose]
    · rw [if_neg ha]
      simp only
      rw [materialize_files_compose]
  · rw [if_neg hp]
    simp only
    unfold add_host_entry_unix
    rw [FS.files_append_ne _ _ _ _ (etc_hosts_ne_compose s).symm, materialize_files_compose]

theorem create_files_nginx (s : String) (w : World) :
    (create_wordpress_site s w).fs.files (s ++ "/nginx.conf") = some (nginxConf s) := by
  rw [create_fs]
  by_cases hp : w.platform = "Windows"
  · rw [if_pos hp]
    unfold add_host_entry_windows
    by_cases ha : w.isAdmin = true
    · rw [if_pos ha]
      cases hreg : w.winreg with
      | ok d =>
          simp only
          rw [FS.files_append_ne _ _ _ _ (win_hosts_ne_nginx d s).symm, materialize_files_nginx]
      | error e =>
          simp only
          rw [materialize_files_nginx]
    · rw [if_neg ha]
      simp only
      rw [materialize_files_nginx]
  · rw [if_neg hp]
    simp only
    unfold add_host_entry_unix
    rw [FS.files_append_ne _ _ _ _ (etc_hosts_ne_nginx s).symm, materialize_files_nginx]

theorem create_files_hosts_unix (s : String) (w : World) (hp : ¬ w.platform = "Windows") :
    (create_wordpress_site s w).fs.files "/etc/hosts" =
      some ((w.fs.files "/etc/hosts").getD "" ++ hostEntry s) := by
  rw [create_fs, if_neg hp]
  simp only
  unfold add_host_entry_unix
  rw [FS.files_append_self]
  rw [materialize_files_other s w.fs "/etc/hosts" (etc_hosts_ne_compose s) (etc_hosts_ne_nginx s)]


theorem materialize_idem (s : String) (fs : FS) :
    materialize_site s (materialize_site s fs) = materialize_site s fs := by
  unfold materialize_site FS.write FS.makedirs
  ext x
  · simp
  · simp only
    split_ifs <;> rfl


theorem nginx_contains_server_name (s : String) :
    ContainsSub (nginxConf s) ("server_name " ++ s ++ ";") := by
  apply (infixB_iff _ _).mpr
  unfold nginxConf
  refine ⟨("server \x7b\n    listen 80;\n    " : String).data,
    ("\n    root /var/www/html;\n    index index.php;\n\n    location / \x7b\n        try_files $uri $uri/ /index.php?$args;\n    \x7d\n\n    location ~ \\.php$ \x7b\n        include fastcgi_params;\n        fastcgi_pass wordpress:9000;\n        fastcgi_index index.php;\n        fastcgi_param SCRIPT_FILENAME $document_root$fastcgi_script_name;\n    \x7d\n\x7d\n" : String).data, ?_⟩
  simp only [String.data_append]
  simp [List.append_assoc]

theorem nginx_contains_php (s : String) : ContainsSub (nginxConf s) phpPassFragment := by
  apply (infixB_iff _ _).mpr
  have h1 : ContainsSub
      (";\n    root /var/www/html;\n    index index.php;\n\n    location / \x7b\n        try_files $uri $uri/ /index.php?$args;\n    \x7d\n\n    location ~ \\.php$ \x7b\n        include fastcgi_params;\n        fastcgi_pass wordpress:9000;\n        fastcgi_index index.php;\n        fastcgi_param SCRIPT_FILENAME $document_root$fastcgi_script_name;\n    \x7d\n\x7d\n" : String) phpPassFragment := by
    decide
  have h2 : (";\n    root /var/www/html;\n    index index.php;\n\n    location / \x7b\n        try_files $uri $uri/ /index.php?$args;\n    \x7d\n\n    location ~ \\.php$ \x7b\n        include fastcgi_params;\n        fastcgi_pass wordpress:9000;\n        fastcgi_index index.php;\n        fastcgi_param SCRIPT_FILENAME $document_root$fastcgi_script_name;\n    \x7d\n\x7d\n" : String).data <:+ (nginxConf s).data := by
    unfold nginxConf
    rw [String.data_append]
    exact List.suffix_append _ _
  exact List.IsInfix.trans ((infixB_iff _ _).mp h1) h2.isInfix

theorem compose_no_semicolon : ¬ (';' ∈ dockerComposeYml.data) := by decide

theorem compose_not_contains_server_name (s : String) :
    ¬ ContainsSub dockerComposeYml ("server_name " ++ s ++ ";") := by
  intro h
  replace h := (infixB_iff _ _).mp h
  have hmem : ';' ∈ ("server_name " ++ s ++ ";").data := by
    rw [String.data_append]
    exact List.mem_append_right _ (by decide)
  exact compose_no_semicolon (h.subset hmem)

theorem compose_contains_depends : ContainsSub dockerComposeYml dependsFragment := by decide

/-! ### Event-trace lemmas -/

theorem countEv_nil (e : Event) : countEv [] e = 0 := rfl

theorem countEv_append (l₁ l₂ : List Event) (e : Event) :
    countEv (l₁ ++ l₂) e = countEv l₁ e + countEv l₂ e := by
  simp [countEv, List.filter_append]

theorem countEv_cons (x : Event) (l : List Event) (e : Event) :
    countEv (x :: l) e = (if x = e then 1 else 0) + countEv l e := by
  by_cases h : x = e <;> simp [countEv, List.filter_cons, h, Nat.add_comm]

theorem createdMsg_ne_pleaseWait (s : String) : createdMsg s ≠ pleaseWaitMsg :=
  ne_of_firstCh (firstCh_append2 _ _ _ 'W' _ rfl) rfl (by decide)

theorem createdMsg_ne_opening (s : String) : createdMsg s ≠ openingMsg :=
  ne_of_firstCh (firstCh_append2 _ _ _ 'W' _ rfl) rfl (by decide)

theorem hostsAdded_ne_pleaseWait : hostsAddedMsg ≠ pleaseWaitMsg := by decide

theorem hostsAdded_ne_opening : hostsAddedMsg ≠ openingMsg := by decide

theorem errMsg_ne_pleaseWait (m : String) : "Error: " ++ m ≠ pleaseWaitMsg :=
  ne_of_firstCh (firstCh_append _ _ 'E' _ rfl) rfl (by decide)

theorem errMsg_ne_opening (m : String) : "Error: " ++ m ≠ openingMsg :=
  ne_of_firstCh (firstCh_append _ _ 'E' _ rfl) rfl (by decide)

theorem pleaseWait_ne_opening : pleaseWaitMsg ≠ openingMsg := by decide

/-- When the dependency check succeeds, its trace is exactly the two version
queries, with no printed output. -/
theorem check_ok_events (w : World) (h : (check_dependencies w).out = .ok) :
    (check_dependencies w).events =
      [.ran ["docker", "--version"] none, .ran ["docker-compose", "--version"] none] := by
  unfold check_dependencies subprocessRun spawnExec at h ⊢
  by_cases hd : w.invocable "docker" = true <;>
  by_cases h1 : w.exitCode ["docker", "--version"] none = 0 <;>
  by_cases hc : w.invocable "docker-compose" = true <;>
  by_cases h2 : w.exitCode ["docker-compose", "--version"] none = 0 <;>
  simp_all

/-- When `create_wordpress_site` returns normally, its trace is a
platform-dependent host-registrar prefix followed by the three messages and
the browser open. -/
theorem create_ok_events (s : String) (w : World)
    (h : (create_wordpress_site s w).out = .ok) :
    ∃ pre, (create_wordpress_site s w).events =
        pre ++ [.printed (createdMsg s), .printed pleaseWaitMsg, .printed openingMsg,
          .browserOpened ("http://" ++ s)] ∧
      (pre = [] ∨ pre = [.printed hostsAddedMsg] ∨ ∃ m, pre = [.printed ("Error: " ++ m)]) := by
  by_cases hp : w.platform = "Windows"
  · by_cases ha : w.isAdmin = true
    · cases hreg : w.winreg with
      | ok d =>
          refine ⟨[.printed hostsAddedMsg], ?_, Or.inr (Or.inl rfl)⟩
          unfold create_wordpress_site add_host_entry_windows
          simp [hp, ha, hreg]
      | error e =>
          refine ⟨[.printed ("Error: " ++ e)], ?_, Or.inr (Or.inr ⟨e, rfl⟩)⟩
          unfold create_wordpress_site add_host_entry_windows
          simp [hp, ha, hreg]
    · exfalso
      unfold create_wordpress_site add_host_entry_windows at h
      simp [hp, ha] at h
  · refine ⟨[], ?_, Or.inl rfl⟩
    unfold create_wordpress_site
    simp [hp]

/-! ### The claims -/

/-- Claim C1, counterexample: at site name `foo`, `create` writes
`foo/docker-compose.yml` whose contents are the constant composition text,
and that text does not contain `server_name foo;` — the claim that the
composition file templates the site name in as the proxy server name is
false. -/
theorem create_compose_lacks_server_name_cex :
    (create_wordpress_site "foo" baseWorld).fs.files "foo/docker-compose.yml"
        = some dockerComposeYml ∧
    ¬ ContainsSub dockerComposeYml ("server_name " ++ "foo" ++ ";") :=
  ⟨by decide, by decide⟩

/-- Claim C1, amended: for every site name `s`, `create` writes
`<s>/docker-compose.yml` with the fixed constant composition text, which
contains no `server_name s;` region; the `server_name s;` templating
appears in the generated `nginx.conf` instead. -/
theorem create_compose_constant_server_name_in_nginx (s : String) (w : World) :
    (create_wordpress_site s w).fs.files (s ++ "/docker-compose.yml") = some dockerComposeYml ∧
    ¬ ContainsSub dockerComposeYml ("server_name " ++ s ++ ";") ∧
    ContainsSub (nginxConf s) ("server_name " ++ s ++ ";") :=
  ⟨create_files_compose s w, compose_not_contains_server_name s,
    nginx_contains_server_name s⟩

/-- Claim C2: `delete` on a site whose directory does not exist does NOT
print the absence message and return normally; the `subprocess.run` call
with the missing directory as `cwd` raises `FileNotFoundError` before the
`try/except` around `rmtree` is reached, so the run ends in an uncaught
exception with an empty trace. -/
theorem delete_missing_dir_raises_uncaught :
    (delete_wordpress_site "ghost" baseWorld).out = Outcome.exc (Exc.fileNotFound "ghost") ∧
    (delete_wordpress_site "ghost" baseWorld).events = [] :=
  ⟨by decide, by decide⟩

/-- Claim C3, counterexample: when the `docker` executable cannot be invoked
at all, `check_dependencies` does not print any diagnostic and does not
terminate via `sys.exit`; the `FileNotFoundError` propagates uncaught. -/
theorem check_dependencies_missing_docker_cex :
    (check_dependencies noDockerWorld).out = Outcome.exc (Exc.fileNotFound "docker") ∧
    printedMsgs (check_dependencies noDockerWorld) = [] :=
  ⟨by decide, by decide⟩

/-- Claim C3, amended: when both executables can be invoked, a non-zero exit
from a version query makes `check_dependencies` print the diagnostic naming
the tool and terminate via `sys.exit(1)`; when both queries exit zero it
returns normally with no output.  (When an executable is missing entirely,
the invocation error instead propagates uncaught with no diagnostic.) -/
theorem check_dependencies_nonzero_exit_diagnostics (w : World)
    (hd : w.invocable "docker" = true) (hc : w.invocable "docker-compose" = true) :
    (¬ w.exitCode ["docker", "--version"] none = 0 →
      (check_dependencies w).out = .exited 1 ∧
      printedMsgs (check_dependencies w) = [dockerMissingMsg]) ∧
    (w.exitCode ["docker", "--version"] none = 0 →
      ¬ w.exitCode ["docker-compose", "--version"] none = 0 →
      (check_dependencies w).out = .exited 1 ∧
      printedMsgs (check_dependencies w) = [composeMissingMsg]) ∧
    (w.exitCode ["docker", "--version"] none = 0 →
      w.exitCode ["docker-compose", "--version"] none = 0 →
      (check_dependencies w).out = .ok ∧
      printedMsgs (check_dependencies w) = []) := by
  refine ⟨fun h1 => ?_, fun h1 h2 => ?_, fun h1 h2 => ?_⟩ <;>
    · unfold check_dependencies subprocessRun spawnExec
      simp [hd, hc, h1, printedMsgs]
      try simp [h2, printedMsgs]

/-- Claim C3, witness: in a world where both tools are invocable but every
command exits 1, the checker prints the Docker diagnostic and exits 1. -/
theorem check_dependencies_nonzero_exit_diagnostics_witness :
    (check_dependencies failWorld).out = .exited 1 ∧
    printedMsgs (check_dependencies failWorld) = [dockerMissingMsg] :=
  (check_dependencies_nonzero_exit_diagnostics failWorld rfl rfl).1 (by decide)

/-- Claim C4: when the site directory exists and `docker-compose` is
invocable, `enable` and `disable` print their success message whatever exit
code the orchestrator returns — the theorem holds for every exit-code
oracle, so the exit code is never inspected. -/
theorem enable_disable_success_unconditional (s : String) (w : World)
    (hdir : w.fs.dirs s = true) (hexe : w.invocable "docker-compose" = true) :
    (enable_wordpress_site s w).out = .ok ∧
    printedMsgs (enable_wordpress_site s w) = [enabledMsg s] ∧
    (disable_wordpress_site s w).out = .ok ∧
    printedMsgs (disable_wordpress_site s w) = [disabledMsg s] := by
  unfold enable_wordpress_site disable_wordpress_site subprocessRun spawnExec
  simp [hdir, hexe, printedMsgs]

/-- Claim C4, witness: `enable foo` and `disable foo` in a world where the
`foo` directory exists but is empty (no `foo/docker-compose.yml`, every
orchestrator invocation exits 1) still print the success messages. -/
theorem enable_disable_success_unconditional_witness :
    (enable_wordpress_site "foo" fooDirWorld).out = .ok ∧
    printedMsgs (enable_wordpress_site "foo" fooDirWorld) = [enabledMsg "foo"] ∧
    (disable_wordpress_site "foo" fooDirWorld).out = .ok ∧
    printedMsgs (disable_wordpress_site "foo" fooDirWorld) = [disabledMsg "foo"] :=
  enable_disable_success_unconditional "foo" fooDirWorld (by decide) rfl

/-- Claim C5: for every site name `s`, `create` writes `<s>/nginx.conf`
containing `server_name s;` and a PHP location block that passes requests to
`wordpress:9000`, and writes `<s>/docker-compose.yml` in which the
`wordpress` service declares `depends_on` the `db` service. -/
theorem create_nginx_templated_compose_depends (s : String) (w : World) :
    (create_wordpress_site s w).fs.files (s ++ "/nginx.conf") = some (nginxConf s) ∧
    ContainsSub (nginxConf s) ("server_name " ++ s ++ ";") ∧
    ContainsSub (nginxConf s) phpPassFragment ∧
    (create_wordpress_site s w).fs.files (s ++ "/docker-compose.yml") = some dockerComposeYml ∧
    ContainsSub dockerComposeYml dependsFragment :=
  ⟨create_files_nginx s w, nginx_contains_server_name s, nginx_contains_php s,
    create_files_compose s w, compose_contains_depends⟩

/-- Claim C6: on a non-Windows platform the host registrar appends exactly
the single newline-terminated line `127.0.0.1 s` to `/etc/hosts`, and
running `create` twice for the same name appends two identical such lines
(no duplicate detection). -/
theorem hosts_append_no_dedup (s : String) (w : World) (hp : ¬ w.platform = "Windows") :
    (add_host_entry_unix s w.fs).files "/etc/hosts"
        = some ((w.fs.files "/etc/hosts").getD "" ++ ("127.0.0.1 " ++ s ++ "\n")) ∧
    (create_wordpress_site s w).fs.files "/etc/hosts"
        = some ((w.fs.files "/etc/hosts").getD "" ++ ("127.0.0.1 " ++ s ++ "\n")) ∧
    (create_wordpress_site s { w with fs := (create_wordpress_site s w).fs }).fs.files "/etc/hosts"
        = some ((w.fs.files "/etc/hosts").getD "" ++ ("127.0.0.1 " ++ s ++ "\n")
            ++ ("127.0.0.1 " ++ s ++ "\n")) := by
  refine ⟨?_, ?_, ?_⟩
  · unfold add_host_entry_unix
    rw [FS.files_append_self]
    rfl
  · exact create_files_hosts_unix s w hp
  · rw [create_files_hosts_unix s { w with fs := (create_wordpress_site s w).fs } hp]
    rw [create_files_hosts_unix s w hp]
    simp [hostEntry]

/-- Claim C6, witness: creating `foo` once and twice on a Linux world with an
initially absent hosts file yields one and then two identical entries. -/
theorem hosts_append_no_dedup_witness :
    (add_host_entry_unix "foo" baseWorld.fs).files "/etc/hosts"
        = some ((baseWorld.fs.files "/etc/hosts").getD "" ++ ("127.0.0.1 " ++ "foo" ++ "\n")) ∧
    (create_wordpress_site "foo" baseWorld).fs.files "/etc/hosts"
        = some ((baseWorld.fs.files "/etc/hosts").getD "" ++ ("127.0.0.1 " ++ "foo" ++ "\n")) ∧
    (create_wordpress_site "foo"
        { baseWorld with fs := (create_wordpress_site "foo" baseWorld).fs }).fs.files "/etc/hosts"
        = some ((baseWorld.fs.files "/etc/hosts").getD "" ++ ("127.0.0.1 " ++ "foo" ++ "\n")
            ++ ("127.0.0.1 " ++ "foo" ++ "\n")) :=
  hosts_append_no_dedup "foo" baseWorld (by decide)

/-- Claim C7: the site materializer is idempotent — `os.makedirs` with
`exist_ok=True` cannot fail on an existing directory and both configuration
files are overwritten unconditionally, so materializing twice leaves exactly
the same filesystem as materializing once (and the site directory exists). -/
theorem materialize_site_idempotent (s : String) (fs : FS) :
    materialize_site s (materialize_site s fs) = materialize_site s fs ∧
    (materialize_site s fs).dirs s = true := by
  refine ⟨materialize_idem s fs, ?_⟩
  unfold materialize_site FS.write FS.makedirs
  simp

/-- Claim C8: the `docker-compose.yml` contents written by `create` are
byte-for-byte identical for any two site names and worlds — the composition
text is the fixed constant `dockerComposeYml`, never a function of the site
name. -/
theorem compose_contents_site_independent (s₁ s₂ : String) (w₁ w₂ : World) :
    (create_wordpress_site s₁ w₁).fs.files (s₁ ++ "/docker-compose.yml")
      = (create_wordpress_site s₂ w₂).fs.files (s₂ ++ "/docker-compose.yml") ∧
    (create_wordpress_site s₁ w₁).fs.files (s₁ ++ "/docker-compose.yml")
      = some dockerComposeYml :=
  ⟨by rw [create_files_compose, create_files_compose], by rw [create_files_compose]⟩

/-- Claim C9: when the site directory does not exist, `enable` and `disable`
end in an uncaught `FileNotFoundError` naming the directory (raised by the
subprocess invocation whose working directory it is) and print nothing — in
particular not their success message. -/
theorem enable_disable_missing_dir_raise (s : String) (w : World)
    (hdir : w.fs.dirs s = false) :
    (enable_wordpress_site s w).out = .exc (.fileNotFound s) ∧
    printedMsgs (enable_wordpress_site s w) = [] ∧
    (disable_wordpress_site s w).out = .exc (.fileNotFound s) ∧
    printedMsgs (disable_wordpress_site s w) = [] := by
  unfold enable_wordpress_site disable_wordpress_site subprocessRun
  simp [hdir, printedMsgs]

/-- Claim C9, witness: `enable ghost` and `disable ghost` with no `ghost`
directory raise `FileNotFoundError` and print nothing. -/
theorem enable_disable_missing_dir_raise_witness :
    (enable_wordpress_site "ghost" baseWorld).out = .exc (.fileNotFound "ghost") ∧
    printedMsgs (enable_wordpress_site "ghost" baseWorld) = [] ∧
    (disable_wordpress_site "ghost" baseWorld).out = .exc (.fileNotFound "ghost") ∧
    printedMsgs (disable_wordpress_site "ghost" baseWorld) = [] :=
  enable_disable_missing_dir_raise "ghost" baseWorld rfl

/-- Claim C10: a successful `create` dispatch opens the browser on
`http://<s>` twice and prints each of the two waiting messages twice — once
inside `create_wordpress_site` and once again in the `__main__` create
branch. -/
theorem mainCreate_browser_and_messages_twice (s : String) (w : World)
    (h : (mainCreate s w).out = .ok) :
    countEv (mainCreate s w).events (.browserOpened ("http://" ++ s)) = 2 ∧
    countEv (mainCreate s w).events (.printed pleaseWaitMsg) = 2 ∧
    countEv (mainCreate s w).events (.printed openingMsg) = 2 := by
  have hm : mainCreate s w =
      (let r1 := check_dependencies w
       match r1.out with
       | .ok =>
         (let r2 := create_wordpress_site s { w with fs := r1.fs }
          match r2.out with
          | .ok => ⟨.ok, r2.fs,
              r1.events ++ r2.events ++ [.printed pleaseWaitMsg, .printed openingMsg,
                .browserOpened ("http://" ++ s)]⟩
          | o => ⟨o, r2.fs, r1.events ++ r2.events⟩)
       | o => ⟨o, r1.fs, r1.events⟩) := rfl
  cases hc : (check_dependencies w).out with
  | ok =>
    cases hcr : (create_wordpress_site s { w with fs := (check_dependencies w).fs }).out with
    | ok =>
      have hev : (mainCreate s w).events =
          (check_dependencies w).events ++
            (create_wordpress_site s { w with fs := (check_dependencies w).fs }).events ++
            [.printed pleaseWaitMsg, .printed openingMsg, .browserOpened ("http://" ++ s)] := by
        rw [hm]
        simp only []
        rw [hc, hcr]
      obtain ⟨pre, hpre, hcases⟩ := create_ok_events s _ hcr
      rw [hev, check_ok_events w hc, hpre]
      rcases hcases with h0 | h1 | ⟨m, h2⟩ <;> subst_vars <;>
        simp [countEv_append, countEv_cons, countEv_nil,
          createdMsg_ne_pleaseWait, createdMsg_ne_opening,
          hostsAdded_ne_pleaseWait, hostsAdded_ne_opening,
          errMsg_ne_pleaseWait, errMsg_ne_opening, pleaseWait_ne_opening,
          pleaseWait_ne_opening.symm]
    | exc e =>
      exfalso
      rw [hm] at h
      simp only [] at h
      rw [hc, hcr] at h
      simp at h
    | exited c =>
      exfalso
      rw [hm] at h
      simp only [] at h
      rw [hc, hcr] at h
      simp at h
  | exc e =>
    exfalso
    rw [hm] at h
    simp only [] at h
    rw [hc] at h
    simp at h
  | exited c =>
    exfalso
    rw [hm] at h
    simp only [] at h
    rw [hc] at h
    simp at h

/-- Claim C10, witness: `create foo` in a fully healthy Linux world succeeds
and its trace opens the browser and prints each waiting message twice. -/
theorem mainCreate_browser_and_messages_twice_witness :
    countEv (mainCreate "foo" baseWorld).events (.browserOpened ("http://" ++ "foo")) = 2 ∧
    countEv (mainCreate "foo" baseWorld).events (.printed pleaseWaitMsg) = 2 ∧
    countEv (mainCreate "foo" baseWorld).events (.printed openingMsg) = 2 :=
  mainCreate_browser_and_messages_twice "foo" baseWorld (by decide)


end WPM
